import Mathlib

/-!
Shallow embedding of `src/be/camera_server.py` (Infaq-Security-System):
the ROI store, the capture loop's read-failure recovery, the presence
debouncer, the alert dispatcher with per-tenant cooldown, the MJPEG
broadcaster, and the session start endpoint.  Machine floats of the
source are modelled as rationals; byte buffers as lists of naturals.
-/

/-! ## Configuration constants (env defaults from camera_server.py) -/

def MISSING_WINDOW : ℕ := 24

def WARN_THRESHOLD : ℚ := 40/100

def ALERT_THRESHOLD : ℚ := 70/100

def PRESENT_GRACE : ℕ := 10

/-! ## ROI store (`ROISchema`, `load_roi_rel`, `save_roi_rel`)

The ROI file on disk is abstracted as either missing, malformed
(unparseable JSON / empty text / wrong fields), or a parsed record of
four numbers.  `ROISchema(**data)` in the source validates only the
pydantic bounds `0 ≤ x,y,w,h ≤ 1`; a pydantic validation failure is an
exception that `load_roi_rel` catches, returning `None`. -/

structure ROISchema where
  x : ℚ
  y : ℚ
  w : ℚ
  h : ℚ
deriving DecidableEq, Repr

/-- The pydantic field validation of `ROISchema`: each field is a
`confloat(ge=0.0, le=1.0)`. -/
def roi_schema_ok (x y w h : ℚ) : Bool :=
  decide (0 ≤ x) && decide (x ≤ 1) && decide (0 ≤ y) && decide (y ≤ 1) &&
  decide (0 ≤ w) && decide (w ≤ 1) && decide (0 ≤ h) && decide (h ≤ 1)

/-- Abstract state of the `roi_config.json` file. -/
inductive RoiFileState where
  | missing : RoiFileState
  | malformed : RoiFileState
  | parsed (x y w h : ℚ) : RoiFileState
deriving DecidableEq, Repr

/-- `load_roi_rel`: `None` when the file is missing, empty or does not
parse, or when `ROISchema(**data)` raises (a field outside `[0,1]`);
otherwise the parsed record. -/
def load_roi_rel : RoiFileState → Option ROISchema
  | .missing => none
  | .malformed => none
  | .parsed x y w h => if roi_schema_ok x y w h then some ⟨x, y, w, h⟩ else none

/-- `save_roi_rel` writes `roi.model_dump_json()`: the file afterwards
parses back to the same four fields. -/
def save_roi_rel (roi : ROISchema) : RoiFileState :=
  .parsed roi.x roi.y roi.w roi.h

/-- The full ROI invariant of the spec (§3): fields in `[0,1]`,
`w>0`, `h>0`, `x+w ≤ 1`, `y+h ≤ 1`.  `set_roi` (the POST handler)
checks the last four on top of the schema bounds; `load_roi_rel` does
not. -/
def roi_invariant_ok (r : ROISchema) : Prop :=
  0 ≤ r.x ∧ r.x ≤ 1 ∧ 0 ≤ r.y ∧ r.y ≤ 1 ∧
  0 ≤ r.w ∧ r.w ≤ 1 ∧ 0 ≤ r.h ∧ r.h ≤ 1 ∧
  0 < r.w ∧ 0 < r.h ∧ r.x + r.w ≤ 1 ∧ r.y + r.h ≤ 1

/-- C8: for every valid ROI rectangle, saving then loading returns the
identical rectangle. -/
theorem c8_roi_round_trip (r : ROISchema) (h : roi_invariant_ok r) :
    load_roi_rel (save_roi_rel r) = some r := by
  obtain ⟨h1, h2, h3, h4, h5, h6, h7, h8, -, -, -, -⟩ := h
  have hok : roi_schema_ok r.x r.y r.w r.h = true := by
    simp [roi_schema_ok, h1, h2, h3, h4, h5, h6, h7, h8]
  simp [save_roi_rel, load_roi_rel, hok]

theorem c8_witness :
    load_roi_rel (save_roi_rel ⟨1/10, 2/10, 3/10, 4/10⟩) =
      some ⟨1/10, 2/10, 3/10, 4/10⟩ :=
  c8_roi_round_trip ⟨1/10, 2/10, 3/10, 4/10⟩ (by norm_num [roi_invariant_ok])

/-- C7 counterexample: the stored rectangle `x=y=0.5, w=h=0.9`
violates `x+w ≤ 1` yet `load_roi_rel` returns it (instead of absent):
the loader never re-checks the §3 invariants beyond the `[0,1]`
field bounds. -/
theorem c7_load_accepts_invariant_violating_rect :
    (1 : ℚ)/2 + 9/10 > 1 ∧
    load_roi_rel (.parsed (1/2) (1/2) (9/10) (9/10)) =
      some ⟨1/2, 1/2, 9/10, 9/10⟩ := by
  refine ⟨by norm_num, ?_⟩
  have hok : roi_schema_ok (1/2) (1/2) (9/10) (9/10) = true := by
    simp only [roi_schema_ok, Bool.and_eq_true, decide_eq_true_eq]
    norm_num
  simp only [load_roi_rel, hok, if_true]

/-- C7 (amended): ROI load returns absent, and never an exception, for a
missing file, for malformed content, and for a stored rectangle with a
field outside `[0,1]`; but a rectangle whose fields are all in `[0,1]`
is returned as-is even when it violates `w>0`, `h>0`, `x+w ≤ 1` or
`y+h ≤ 1`. -/
theorem c7_load_soft_failure :
    load_roi_rel .missing = none ∧
    load_roi_rel .malformed = none ∧
    (∀ x y w h : ℚ, roi_schema_ok x y w h = false →
      load_roi_rel (.parsed x y w h) = none) ∧
    (∀ x y w h : ℚ, roi_schema_ok x y w h = true →
      load_roi_rel (.parsed x y w h) = some ⟨x, y, w, h⟩) := by
  refine ⟨rfl, rfl, ?_, ?_⟩
  · intro x y w h hbad
    simp [load_roi_rel, hbad]
  · intro x y w h hok
    simp [load_roi_rel, hok]

theorem c7_witness :
    load_roi_rel (.parsed 2 0 (1/2) (1/2)) = none :=
  c7_load_soft_failure.2.2.1 2 0 (1/2) (1/2) (by
    simp only [roi_schema_ok, Bool.and_eq_false_iff, decide_eq_false_iff_not]
    norm_num)

/-! ## Capture loop: read-failure recovery (`capture_loop`, lines 896-926)

Per iteration the loop reads a frame.  On failure it increments
`fail_read_streak`; a looping `video` source with streak ≥ 2 seeks to
frame 0 and resets the streak; otherwise at streak ≥ 15 the handle is
released and `reopen_capture` is attempted once, the streak resets to 0,
and a failed reopen leaves `cap = None` with a surfaced error.  Any
successful read resets the streak to 0. -/

structure ReadState where
  fail_read_streak : ℕ
  reopen_attempts : ℕ
deriving DecidableEq, Repr

/-- The streak/reopen bookkeeping of one loop iteration, counting reopen
attempts (an attempt is counted whether or not the reopen succeeds). -/
def read_fail_step (sourceIsVideo loopVideo : Bool) (st : ReadState)
    (readOk : Bool) : ReadState :=
  if readOk then ⟨0, st.reopen_attempts⟩
  else
    let fs := st.fail_read_streak + 1
    if sourceIsVideo && loopVideo && decide (2 ≤ fs) then ⟨0, st.reopen_attempts⟩
    else if 15 ≤ fs then ⟨0, st.reopen_attempts + 1⟩
    else ⟨fs, st.reopen_attempts⟩

def run_reads (sv lv : Bool) (st : ReadState) : List Bool → ReadState
  | [] => st
  | r :: rs => run_reads sv lv (read_fail_step sv lv st r) rs

/-- C3: for a non-looping-file capture source, 14 consecutive read
failures followed by a success cause no reopen attempt; 15 consecutive
failures cause exactly one reopen attempt with the streak reset to 0;
and any successful read resets the streak to 0. -/
theorem c3_fail_streak_reopen_policy (sv lv : Bool)
    (h : sv = false ∨ lv = false) :
    run_reads sv lv ⟨0, 0⟩ (List.replicate 14 false ++ [true]) = ⟨0, 0⟩ ∧
    run_reads sv lv ⟨0, 0⟩ (List.replicate 15 false) = ⟨0, 1⟩ ∧
    (∀ st : ReadState, (read_fail_step sv lv st true).fail_read_streak = 0) := by
  rcases h with h | h <;> subst h
  · cases lv <;> exact ⟨by decide, by decide, fun st => rfl⟩
  · cases sv <;> exact ⟨by decide, by decide, fun st => rfl⟩

theorem c3_witness :
    run_reads false true ⟨0, 0⟩ (List.replicate 15 false) = ⟨0, 1⟩ :=
  (c3_fail_streak_reopen_policy false true (Or.inl rfl)).2.1

/-! ## Capture loop: worker liveness on reconnect failure (C1)

Same iteration, now also tracking whether the capture handle exists and
the surfaced `last_cap_error`.  After `cap = reopen_capture(...)` fails
(`cap is None`), the loop `continue`s and the next iteration evaluates
`cap.read()` on `None`, raising `AttributeError` — the worker thread
terminates with an unhandled exception while `running` stays `True`. -/

structure CapLoopState where
  capOpen : Bool
  fail_read_streak : ℕ
  last_cap_error : Option String
deriving DecidableEq, Repr

structure CapInput where
  readOk : Bool
  reopenOk : Bool
  encodeOk : Bool
deriving DecidableEq, Repr

inductive IterResult where
  | next (st : CapLoopState) : IterResult
  | crashed (msg : String) : IterResult
deriving DecidableEq, Repr

/-- One iteration of the `while running` body of `capture_loop`,
restricted to capture/recovery state.  `crashed` models an uncaught
Python exception escaping the loop (there is no `except` around it). -/
def capture_iter (sourceIsVideo loopVideo : Bool) (st : CapLoopState)
    (inp : CapInput) : IterResult :=
  if st.capOpen = false then
    .crashed "AttributeError: NoneType object has no attribute read"
  else if inp.readOk then
    .next ⟨true, 0, if inp.encodeOk then none else st.last_cap_error⟩
  else
    let fs := st.fail_read_streak + 1
    if sourceIsVideo && loopVideo && decide (2 ≤ fs) then
      .next ⟨true, 0, st.last_cap_error⟩
    else if 15 ≤ fs then
      if inp.reopenOk then .next ⟨true, 0, st.last_cap_error⟩
      else .next ⟨false, 0, some "Reconnect gagal: cap is None"⟩
    else .next ⟨true, fs, st.last_cap_error⟩

def capture_run (sv lv : Bool) (st : CapLoopState) : List CapInput → IterResult
  | [] => .next st
  | i :: is =>
    match capture_iter sv lv st i with
    | .next st' => capture_run sv lv st' is
    | .crashed m => .crashed m

def reconnect_fail_input : CapInput := ⟨false, false, true⟩

/-- C1 (code bug): with every read failing and the reopen at streak 15
also failing, after 15 iterations the worker has surfaced the reconnect
error and holds no capture handle — and the 16th iteration crashes the
worker with an `AttributeError` (`cap` is `None`), so the worker does
not remain in the recovering state and terminates abnormally. -/
theorem c1_reconnect_failure_crashes :
    capture_run false false ⟨true, 0, none⟩
        (List.replicate 15 reconnect_fail_input) =
      .next ⟨false, 0, some "Reconnect gagal: cap is None"⟩ ∧
    capture_run false false ⟨true, 0, none⟩
        (List.replicate 16 reconnect_fail_input) =
      .crashed "AttributeError: NoneType object has no attribute read" := by
  constructor
  · rfl
  · rfl

/-! ## Presence debouncer (`capture_loop`, lines 943-960)

Per processed frame: the miss streak, the grace period, the fixed
24-sample absence window (append, pop front when over capacity), the
mean absence, the three-valued status string and the binary alert
flag. -/

def status_of_avg (avg_absent : ℚ) : String :=
  if ALERT_THRESHOLD ≤ avg_absent then "ALERT"
  else if WARN_THRESHOLD ≤ avg_absent then "WARN"
  else "NORMAL"

def alert_flag_of (status_str : String) : String :=
  if status_str = "ALERT" then "missing" else "present"

def list_mean (l : List ℕ) : ℚ := (l.sum : ℚ) / l.length

structure DebounceState where
  missing_streak : ℕ
  absent_hist : List ℕ
deriving DecidableEq, Repr

structure DebounceOut where
  st : DebounceState
  avg_absent : ℚ
  status_str : String
deriving DecidableEq, Repr

/-- Lines 943-957 of `capture_loop`: streak, grace, window push/evict,
mean, status. -/
def debounce_step (st : DebounceState) (present_raw : Bool) : DebounceOut :=
  let ms := if present_raw then 0 else st.missing_streak + 1
  let present : Bool := present_raw || decide (ms ≤ PRESENT_GRACE)
  let hist1 := st.absent_hist ++ [if present then 0 else 1]
  let hist2 := if MISSING_WINDOW < hist1.length then hist1.tail else hist1
  let avg := if hist2.isEmpty then (if present then (0 : ℚ) else 1) else list_mean hist2
  ⟨⟨ms, hist2⟩, avg, status_of_avg avg⟩

lemma status_of_avg_spec (avg : ℚ) :
    (status_of_avg avg = "ALERT" ↔ ALERT_THRESHOLD ≤ avg) ∧
    (status_of_avg avg = "WARN" ↔ (WARN_THRESHOLD ≤ avg ∧ avg < ALERT_THRESHOLD)) ∧
    (status_of_avg avg = "NORMAL" ↔ avg < WARN_THRESHOLD) := by
  have hwa : WARN_THRESHOLD < ALERT_THRESHOLD := by
    norm_num [WARN_THRESHOLD, ALERT_THRESHOLD]
  unfold status_of_avg
  split_ifs with h1 h2
  · refine ⟨by simp [h1], ?_, ?_⟩
    · constructor
      · intro hx; exact absurd hx (by decide)
      · rintro ⟨-, hlt⟩; exact absurd h1 (not_le.mpr hlt)
    · constructor
      · intro hx; exact absurd hx (by decide)
      · intro hlt; exact absurd h1 (not_le.mpr (hlt.trans hwa))
  · refine ⟨?_, by simp [h2, not_le.mp h1], ?_⟩
    · constructor
      · intro hx; exact absurd hx (by decide)
      · intro hge; exact absurd hge h1
    · constructor
      · intro hx; exact absurd hx (by decide)
      · intro hlt; exact absurd h2 (not_le.mpr hlt)
  · refine ⟨?_, ?_, by simp [not_le.mp h2]⟩
    · constructor
      · intro hx; exact absurd hx (by decide)
      · intro hge; exact absurd hge h1
    · constructor
      · intro hx; exact absurd hx (by decide)
      · rintro ⟨hge, -⟩; exact absurd hge h2

lemma alert_flag_of_spec (s : String) :
    (alert_flag_of s = "missing" ↔ s = "ALERT") := by
  unfold alert_flag_of
  split_ifs with h
  · simp [h]
  · constructor
    · intro hx; exact absurd hx (by decide)
    · intro hx; exact absurd hx h

/-- C6: with window capacity 24 and `ALERT_THRESHOLD = 0.70`, every full
window of 24 binary samples with at least 17 absences yields status
`ALERT`; and per processed frame the status is `ALERT` iff the mean
absence is ≥ 0.70, `WARN` iff it is in `[0.40, 0.70)`, `NORMAL` iff it
is below 0.40, with the binary alert flag `"missing"` iff the status is
`ALERT`. -/
theorem c6_window_threshold_status :
    (∀ hist : List ℕ, hist.length = MISSING_WINDOW → (∀ a ∈ hist, a ≤ 1) →
      17 ≤ hist.sum → status_of_avg (list_mean hist) = "ALERT") ∧
    (∀ st p,
      ((debounce_step st p).status_str = "ALERT" ↔
        ALERT_THRESHOLD ≤ (debounce_step st p).avg_absent) ∧
      ((debounce_step st p).status_str = "WARN" ↔
        (WARN_THRESHOLD ≤ (debounce_step st p).avg_absent ∧
          (debounce_step st p).avg_absent < ALERT_THRESHOLD)) ∧
      ((debounce_step st p).status_str = "NORMAL" ↔
        (debounce_step st p).avg_absent < WARN_THRESHOLD) ∧
      (alert_flag_of (debounce_step st p).status_str = "missing" ↔
        (debounce_step st p).status_str = "ALERT")) := by
  constructor
  · intro hist hlen hbin hsum
    have hs : (17 : ℚ) ≤ (hist.sum : ℚ) := by exact_mod_cast hsum
    have hmean : ALERT_THRESHOLD ≤ list_mean hist := by
      unfold list_mean ALERT_THRESHOLD
      rw [hlen]
      have h24 : ((MISSING_WINDOW : ℕ) : ℚ) = 24 := by norm_num [MISSING_WINDOW]
      rw [h24, div_le_div_iff₀ (by norm_num) (by norm_num)]
      linarith
    unfold status_of_avg
    rw [if_pos hmean]
  · intro st p
    have hss : (debounce_step st p).status_str =
        status_of_avg ((debounce_step st p).avg_absent) := rfl
    obtain ⟨ha, hw, hn⟩ := status_of_avg_spec ((debounce_step st p).avg_absent)
    exact ⟨by rw [hss]; exact ha, by rw [hss]; exact hw, by rw [hss]; exact hn,
      alert_flag_of_spec _⟩

theorem c6_witness :
    status_of_avg (list_mean (List.replicate 17 1 ++ List.replicate 7 0)) =
      "ALERT" :=
  c6_window_threshold_status.1 (List.replicate 17 1 ++ List.replicate 7 0)
    (by decide) (by decide) (by decide)

/-! ## Alert edge trigger (`capture_loop`, lines 959-963)

`old_alert = alert_status; alert_status = "missing" if ALERT else
"present"; if TG_TOKEN and status == "ALERT" and old_alert != "missing":
maybe_send_alert_photo(...)`.  The dispatcher call is therefore gated on
the transition of the externally visible flag. -/

/-- One frame of the edge logic: returns the new `alert_status` and
whether `maybe_send_alert_photo` is invoked (with `tg_token` the
non-emptiness of `TG_TOKEN`). -/
def alert_edge_step (tg_token : Bool) (alert_status status_str : String) :
    String × Bool :=
  let old_alert := alert_status
  let new_alert := alert_flag_of status_str
  (new_alert,
    tg_token && decide (status_str = "ALERT") && decide (old_alert ≠ "missing"))

/-- The dispatcher-invocation sequence over a run of per-frame statuses,
starting from the carried-over `alert_status` flag. -/
def alert_edge_run (tg : Bool) (flag : String) : List String → List Bool
  | [] => []
  | s :: rest =>
    (alert_edge_step tg flag s).2 ::
      alert_edge_run tg (alert_edge_step tg flag s).1 rest

/-- The value of `alert_status` seen by frame `n`: the carried-over flag
for the first frame, else the flag computed from the previous frame's
status. -/
def prev_alert_flag (flag0 : String) (sts : List String) : ℕ → String
  | 0 => flag0
  | n + 1 => alert_flag_of (sts.getD n "NORMAL")

/-- C5: with a Telegram token configured, the dispatcher is invoked on
frame `n` iff that frame's status is `ALERT` and the `alert_status` flag
before the frame is not `"missing"` — i.e. exactly on the non-ALERT to
ALERT edges of the flag, so in a run of consecutive ALERT frames only
the first can fire and each new crossing fires exactly once. -/
theorem c5_alert_edge_triggered (flag0 : String) (sts : List String) (n : ℕ)
    (h : n < sts.length) :
    (alert_edge_run true flag0 sts).getD n false = true ↔
      (sts.getD n "NORMAL" = "ALERT" ∧ prev_alert_flag flag0 sts n ≠ "missing") := by
  induction sts generalizing flag0 n with
  | nil => simp at h
  | cons s rest ih =>
    cases n with
    | zero =>
      simp only [alert_edge_run, List.getD_cons_zero, prev_alert_flag,
        alert_edge_step, Bool.and_eq_true, decide_eq_true_eq, true_and]
    | succ m =>
      have hm : m < rest.length := by simpa using h
      have hrec := ih (alert_edge_step true flag0 s).1 m hm
      simp only [alert_edge_run, List.getD_cons_succ]
      rw [hrec]
      have hflag : prev_alert_flag (alert_edge_step true flag0 s).1 rest m =
          prev_alert_flag flag0 (s :: rest) (m + 1) := by
        cases m with
        | zero => simp [prev_alert_flag, alert_edge_step]
        | succ k => simp [prev_alert_flag]
      rw [hflag]

theorem c5_witness :
    (alert_edge_run true "present" ["ALERT"]).getD 0 false = true :=
  (c5_alert_edge_triggered "present" ["ALERT"] 0 (by decide)).mpr (by decide)

/-! ## ROI hot-reload polling (`capture_loop`, lines 927-934)

After a successful read, `counter += 1`; only when `counter % 30 == 0`
is the file's mtime stat'ed, and only when it differs from the recorded
`roi_mtime` is the ROI re-read (`roi_rect_px`).  The file content is
never diffed. -/

structure RoiPollState where
  counter : ℕ
  roi_mtime : ℚ
  roi : Option (ℤ × ℤ × ℤ × ℤ)
deriving DecidableEq, Repr

/-- The per-successful-frame ROI reload logic: `file_mtime` is the
current `st_mtime` of the ROI file (0.0 when absent) and `file_roi` the
pixel rectangle that `roi_rect_px` would compute from the file now. -/
def roi_poll_step (st : RoiPollState) (file_mtime : ℚ)
    (file_roi : Option (ℤ × ℤ × ℤ × ℤ)) : RoiPollState :=
  let c := st.counter + 1
  if c % 30 = 0 then
    if file_mtime ≠ st.roi_mtime then ⟨c, file_mtime, file_roi⟩
    else ⟨c, st.roi_mtime, st.roi⟩
  else ⟨c, st.roi_mtime, st.roi⟩

/-- C9: the ROI in use changes only on a frame whose (incremented)
counter is a multiple of 30, and even then only when the file's mtime
differs from the recorded one; in particular a content change that
leaves the mtime unchanged is never picked up, and off-boundary frames
never re-read the file. -/
theorem c9_roi_mtime_gated_reload :
    (∀ (st : RoiPollState) (fm : ℚ) (fr : Option (ℤ × ℤ × ℤ × ℤ)),
      (st.counter + 1) % 30 ≠ 0 →
      roi_poll_step st fm fr = ⟨st.counter + 1, st.roi_mtime, st.roi⟩) ∧
    (∀ (st : RoiPollState) (fm : ℚ) (fr : Option (ℤ × ℤ × ℤ × ℤ)),
      fm = st.roi_mtime →
      (roi_poll_step st fm fr).roi = st.roi ∧
        (roi_poll_step st fm fr).roi_mtime = st.roi_mtime) := by
  constructor
  · intro st fm fr hc
    simp [roi_poll_step, hc]
  · intro st fm fr hm
    unfold roi_poll_step
    by_cases hc : (st.counter + 1) % 30 = 0
    · simp [hc, hm]
    · simp [hc]

theorem c9_witness :
    (roi_poll_step ⟨29, 5, none⟩ 5 (some (1, 2, 3, 4))).roi = none :=
  (c9_roi_mtime_gated_reload.2 ⟨29, 5, none⟩ 5 (some (1, 2, 3, 4)) rfl).1

/-! ## Session start (`start_camera`, lines 1068-1122)

The handler (after the edge-key check): rejects when capture is
disabled or OpenCV is absent (503), returns success unchanged when
already running, rejects a `video`/`ipcam` source without a path (400),
and otherwise records the new source config, resets `stream_ready` and
`last_cap_error`, and sets `running` — it never touches
`alert_status`. -/

structure ServerState where
  running : Bool
  alert_status : String
  stream_ready : Bool
  last_cap_error : Option String
  cur_source : String
  cur_index : ℤ
  cur_path : Option String
  cur_loop : Bool
  cur_camera_id : Option ℤ
  cur_masjid_id : Option ℤ
deriving DecidableEq, Repr

def start_camera (enableCapture cv2Some : Bool) (st : ServerState)
    (source : String) (index : ℤ) (path : Option String) (loopFlag : Bool)
    (camera_id : Option ℤ) : Except ℕ ServerState :=
  if enableCapture = false then .error 503
  else if cv2Some = false then .error 503
  else if st.running then .ok st
  else if (source = "video" ∨ source = "ipcam") ∧ path = none then .error 400
  else .ok { st with
    cur_source := source, cur_index := index, cur_path := path,
    cur_loop := loopFlag, cur_camera_id := camera_id, cur_masjid_id := none,
    stream_ready := false, last_cap_error := none, running := true }

/-- C10: starting a capture run never changes `alert_status` (it resets
`stream_ready` and `last_cap_error` instead), and because the flag is
carried over, a first frame whose status is ALERT while the carried-over
flag is already `"missing"` does not invoke the dispatcher. -/
theorem c10_start_preserves_alert_flag :
    (∀ (ec cv : Bool) (st : ServerState) (source : String) (index : ℤ)
        (path : Option String) (lp : Bool) (cid : Option ℤ) (st' : ServerState),
      start_camera ec cv st source index path lp cid = .ok st' →
      st'.alert_status = st.alert_status) ∧
    (∀ (ec cv : Bool) (st : ServerState) (source : String) (index : ℤ)
        (path : Option String) (lp : Bool) (cid : Option ℤ) (st' : ServerState),
      start_camera ec cv st source index path lp cid = .ok st' →
      st.running = false →
      st'.stream_ready = false ∧ st'.last_cap_error = none ∧
        st'.running = true) ∧
    (∀ tg : Bool, (alert_edge_step tg "missing" "ALERT").2 = false) := by
  refine ⟨?_, ?_, ?_⟩
  · intro ec cv st source index path lp cid st' h
    unfold start_camera at h
    split_ifs at h
    · cases h; rfl
    · cases h; rfl
  · intro ec cv st source index path lp cid st' h hrun
    unfold start_camera at h
    split_ifs at h with h1 h2 h3 h4
    · simp [hrun] at h3
    · cases h; exact ⟨rfl, rfl, rfl⟩
  · intro tg
    simp [alert_edge_step]

theorem c10_witness :
    (⟨true, "missing", false, none, "webcam", 0, none, true, none, none⟩ :
        ServerState).alert_status =
      (⟨false, "missing", true, some "err", "video", 5, some "clip.mp4", false,
        some 9, some 3⟩ : ServerState).alert_status :=
  c10_start_preserves_alert_flag.1 true true
    ⟨false, "missing", true, some "err", "video", 5, some "clip.mp4", false,
      some 9, some 3⟩
    "webcam" 0 none true none
    ⟨true, "missing", false, none, "webcam", 0, none, true, none, none⟩ rfl

/-! ## MJPEG broadcaster and stream endpoint (`mjpeg_gen`,
`camera_stream`, lines 990-1000 and 1131-1151)

`mjpeg_gen` polls the shared `latest_jpeg` every 20ms and yields one
multipart chunk per poll only when a frame exists; `camera_stream`
rejects with 409 when the camera is not running and with 425 when no
first frame has been produced yet — it does not block. -/

structure MjpegChunk where
  payload : List ℕ
deriving DecidableEq, Repr

/-- The chunks emitted by `mjpeg_gen` given the sequence of values of
`latest_jpeg` it observes at its polls. -/
def mjpeg_gen_chunks : List (Option (List ℕ)) → List MjpegChunk
  | [] => []
  | some buf :: rest => ⟨buf⟩ :: mjpeg_gen_chunks rest
  | none :: rest => mjpeg_gen_chunks rest

/-- The `camera_stream` endpoint; `stream_token` is `STREAM_TOKEN`
(empty when unset), `.ok` means a `StreamingResponse` over `mjpeg_gen`
is returned. -/
def camera_stream (stream_token : String) (token : Option String)
    (running stream_ready : Bool) : Except ℕ Unit :=
  if stream_token ≠ "" ∧ token ≠ some stream_token then .error 401
  else if running = false then .error 409
  else if stream_ready = false then .error 425
  else .ok ()

/-- C2 counterexample: with the camera running but no frame published
yet, the streaming endpoint does not block waiting for the first frame —
it returns HTTP error 425. -/
theorem c2_stream_endpoint_errors_before_first_frame :
    camera_stream "" none true false = .error 425 := rfl

/-- C2 (amended): a connected generator emits no chunk while
`latest_jpeg` is absent and emits its first chunk at the first poll
after the first frame is published; but the endpoint itself, called
before the first frame, returns 425 (and 409 when not running) instead
of blocking. -/
theorem c2_first_chunk_after_first_frame :
    (∀ polls : List (Option (List ℕ)), (∀ b ∈ polls, b = none) →
      mjpeg_gen_chunks polls = []) ∧
    (∀ (pre : List (Option (List ℕ))) (buf : List ℕ)
        (rest : List (Option (List ℕ))), (∀ b ∈ pre, b = none) →
      mjpeg_gen_chunks (pre ++ some buf :: rest) =
        ⟨buf⟩ :: mjpeg_gen_chunks rest) ∧
    (∀ (token : Option String) (sr : Bool),
      camera_stream "" token false sr = .error 409) ∧
    (∀ token : Option String, camera_stream "" token true false = .error 425) := by
  refine ⟨?_, ?_, ?_, ?_⟩
  · intro polls hnone
    induction polls with
    | nil => rfl
    | cons b bs ih =>
      have hb : b = none := hnone b (List.mem_cons_self _ _)
      subst hb
      simpa [mjpeg_gen_chunks] using ih fun x hx => hnone x (List.mem_cons_of_mem _ hx)
  · intro pre buf rest hnone
    induction pre with
    | nil => rfl
    | cons b bs ih =>
      have hb : b = none := hnone b (List.mem_cons_self _ _)
      subst hb
      simpa [mjpeg_gen_chunks] using ih fun x hx => hnone x (List.mem_cons_of_mem _ hx)
  · intro token sr
    simp [camera_stream]
  · intro token
    simp [camera_stream]

theorem c2_witness :
    mjpeg_gen_chunks ([none, none] ++ some [7] :: [none]) =
      ⟨[7]⟩ :: mjpeg_gen_chunks [none] :=
  c2_first_chunk_after_first_frame.2.1 [none, none] [7] [none] (by decide)

/-! ## Alert dispatcher cooldown (`maybe_send_alert_photo`,
`last_alert_ts_by_masjid`, lines 616-645)

One invocation resolves a target `(id_masjid, chat_id, cooldown)`;
without a target it no-ops.  With `cooldown > 0` and
`now - last_alert_ts_by_masjid.get(mid, 0.0) < cooldown` it no-ops.
Otherwise it JPEG-encodes and sends; only a successful send updates
`last_alert_ts_by_masjid[mid] = now`. -/

/-- One invocation's inputs: the resolved target (tenant id and cooldown
seconds; `none` when no chat id is configured), the wall-clock `now`,
and the outcomes of the JPEG encode and the Telegram transport. -/
structure SendCall where
  target : Option (ℕ × ℤ)
  now : ℚ
  encodeOk : Bool
  sendOk : Bool
deriving DecidableEq, Repr

/-- `maybe_send_alert_photo`: returns whether a notification was
successfully dispatched, and the updated `last_alert_ts_by_masjid`
map (total with default 0.0, as `dict.get(mid, 0.0)`). -/
def maybe_send_alert_photo (cv2Some : Bool) (last_alert_ts : ℕ → ℚ)
    (c : SendCall) : Bool × (ℕ → ℚ) :=
  if cv2Some = false then (false, last_alert_ts)
  else
    match c.target with
    | none => (false, last_alert_ts)
    | some (mid, cooldown) =>
      let last_ts := last_alert_ts mid
      if 0 < cooldown ∧ c.now - last_ts < (cooldown : ℚ) then
        (false, last_alert_ts)
      else if c.encodeOk = false then (false, last_alert_ts)
      else if c.sendOk then
        (true, fun m => if m = mid then c.now else last_alert_ts m)
      else (false, last_alert_ts)

def call_mid (c : SendCall) : ℕ := (c.target.map Prod.fst).getD 0

/-- Folds a sequence of dispatcher invocations over the cooldown map,
collecting the successfully dispatched `(tenant, time)` events. -/
def run_sends (last_alert_ts : ℕ → ℚ) :
    List SendCall → List (ℕ × ℚ) × (ℕ → ℚ)
  | [] => ([], last_alert_ts)
  | c :: cs =>
    ((if (maybe_send_alert_photo true last_alert_ts c).1 then
        [(call_mid c, c.now)] else []) ++
      (run_sends (maybe_send_alert_photo true last_alert_ts c).2 cs).1,
     (run_sends (maybe_send_alert_photo true last_alert_ts c).2 cs).2)

def mid_times (mid : ℕ) (evs : List (ℕ × ℚ)) : List ℚ :=
  (evs.filter fun e => e.1 = mid).map Prod.snd

/-- Dispatch times each at least `cq` after the previous one (and the
first at least `cq` after `prev`). -/
def Spaced (cq : ℚ) : ℚ → List ℚ → Prop
  | _, [] => True
  | prev, t :: ts => prev + cq ≤ t ∧ Spaced cq t ts

/-- The call's resolved cooldown for tenant `mid` is `cd` (vacuous for
other tenants and for calls without a target). -/
def cool_ok (mid : ℕ) (cd : ℤ) (c : SendCall) : Bool :=
  match c.target with
  | none => true
  | some (m, k) => !(decide (m = mid)) || decide (k = cd)

lemma maybe_send_cases (last : ℕ → ℚ) (c : SendCall) :
    maybe_send_alert_photo true last c = (false, last) ∨
    (∃ mid cd, c.target = some (mid, cd) ∧ c.sendOk = true ∧
      ¬(0 < cd ∧ c.now - last mid < (cd : ℚ)) ∧
      maybe_send_alert_photo true last c =
        (true, fun m => if m = mid then c.now else last m)) := by
  unfold maybe_send_alert_photo
  rcases htc : c.target with - | ⟨mid, cd⟩
  · exact Or.inl (by simp)
  · simp only [Bool.true_eq_false, if_false]
    split_ifs with hg he hs
    · exact Or.inl rfl
    · exact Or.inl rfl
    · exact Or.inr ⟨mid, cd, rfl, hs, hg, rfl⟩
    · exact Or.inl rfl

lemma mid_times_cons (mid m : ℕ) (t : ℚ) (evs : List (ℕ × ℚ)) :
    mid_times mid ((m, t) :: evs) =
      if m = mid then t :: mid_times mid evs else mid_times mid evs := by
  by_cases h : m = mid <;> simp [mid_times, List.filter_cons, h]

lemma run_sends_spaced (mid : ℕ) (cd : ℤ) (hcd : 0 < cd)
    (trace : List SendCall) (last : ℕ → ℚ)
    (hcool : ∀ c ∈ trace, cool_ok mid cd c = true) :
    Spaced (cd : ℚ) (last mid) (mid_times mid (run_sends last trace).1) := by
  induction trace generalizing last with
  | nil => simp [run_sends, mid_times, Spaced]
  | cons c cs ih =>
    have hc : cool_ok mid cd c = true := hcool c (List.mem_cons_self _ _)
    have hcs : ∀ x ∈ cs, cool_ok mid cd x = true := fun x hx =>
      hcool x (List.mem_cons_of_mem _ hx)
    rcases maybe_send_cases last c with hms | ⟨m, k, htgt, -, hguard, hms⟩
    · simp only [run_sends, hms, if_false, List.nil_append]
      exact ih last hcs
    · simp only [run_sends, hms, if_true, List.singleton_append]
      have hcm : call_mid c = m := by simp [call_mid, htgt]
      by_cases hm : m = mid
      · subst hm
        have hk : k = cd := by


          have h0 := hc
          simp [cool_ok, htgt] at h0
          exact h0
        subst hk
        have hnow : last m + (k : ℚ) ≤ c.now := by
          push_neg at hguard
          have h2 := hguard hcd
          linarith
        have hrec : Spaced (k : ℚ) c.now
            (mid_times m
              (run_sends (fun m' => if m' = m then c.now else last m') cs).1) := by
          simpa using ih (fun m' => if m' = m then c.now else last m') hcs
        rw [hcm, mid_times_cons, if_pos rfl]
        exact ⟨hnow, hrec⟩
      · have hne : mid ≠ m := fun hx => hm hx.symm
        have hrec : Spaced (cd : ℚ) (last mid)
            (mid_times mid
              (run_sends (fun m' => if m' = m then c.now else last m') cs).1) := by
          simpa [hne] using ih (fun m' => if m' = m then c.now else last m') hcs
        rw [hcm, mid_times_cons, if_neg hm]
        exact hrec

lemma spaced_pairwise (cq : ℚ) (hc : 0 ≤ cq) (ts : List ℚ) :
    ∀ prev : ℚ, Spaced cq prev ts →
      List.Pairwise (fun a b => a + cq ≤ b) ts ∧ ∀ t ∈ ts, prev + cq ≤ t := by
  induction ts with
  | nil => intro prev _; exact ⟨List.Pairwise.nil, by simp⟩
  | cons t ts ih =>
    intro prev hsp
    obtain ⟨h1, h2⟩ := hsp
    obtain ⟨hp, hall⟩ := ih t h2
    refine ⟨List.Pairwise.cons (fun u hu => hall u hu) hp, ?_⟩
    intro u hu
    rcases List.mem_cons.mp hu with rfl | hu
    · exact h1
    · have := hall u hu
      linarith

/-- C4: over every sequence of dispatcher invocations, the successfully
dispatched notifications of a tenant with configured positive cooldown
`cd` are pairwise at least `cd` apart in time; a transport failure never
updates the tenant's last-sent timestamp; and the concrete two-edges-
within-cooldown scenario (cooldown 10, edges at t=100 and t=105)
dispatches exactly one notification. -/
theorem c4_cooldown_invariant :
    (∀ (mid : ℕ) (cd : ℤ), 0 < cd →
      ∀ trace : List SendCall, (∀ c ∈ trace, cool_ok mid cd c = true) →
      List.Pairwise (fun a b => a + (cd : ℚ) ≤ b)
        (mid_times mid (run_sends (fun _ => 0) trace).1)) ∧
    (∀ (last : ℕ → ℚ) (c : SendCall), c.sendOk = false →
      (maybe_send_alert_photo true last c).2 = last) ∧
    (run_sends (fun _ => 0)
      [⟨some (1, 10), 100, true, true⟩,
       ⟨some (1, 10), 105, true, true⟩]).1 = [(1, 100)] := by
  refine ⟨?_, ?_, ?_⟩
  · intro mid cd hcd trace hcool
    have hsp := run_sends_spaced mid cd hcd trace (fun _ => 0) hcool
    have hc0 : (0 : ℚ) ≤ (cd : ℚ) := by exact_mod_cast hcd.le
    exact (spaced_pairwise (cd : ℚ) hc0 _ _ hsp).1
  · intro last c hsend
    rcases maybe_send_cases last c with hms | ⟨m, k, -, hok, -, -⟩
    · rw [hms]
    · rw [hok] at hsend; cases hsend
  · have h1 : maybe_send_alert_photo true (fun _ => 0)
        ⟨some (1, 10), 100, true, true⟩ =
        (true, fun m => if m = 1 then (100 : ℚ) else 0) := by
      unfold maybe_send_alert_photo
      norm_num
    have h2 : maybe_send_alert_photo true
        (fun m => if m = 1 then (100 : ℚ) else 0)
        ⟨some (1, 10), 105, true, true⟩ =
        (false, fun m => if m = 1 then (100 : ℚ) else 0) := by
      unfold maybe_send_alert_photo
      norm_num
    simp only [run_sends, h1, h2, if_true, if_false, call_mid]
    norm_num [run_sends]

theorem c4_witness :
    List.Pairwise (fun a b => a + ((10 : ℤ) : ℚ) ≤ b)
      (mid_times 1 (run_sends (fun _ => 0)
        [⟨some (1, 10), 100, true, true⟩,
         ⟨some (1, 10), 105, true, true⟩]).1) :=
  c4_cooldown_invariant.1 1 10 (by decide)
    [⟨some (1, 10), 100, true, true⟩, ⟨some (1, 10), 105, true, true⟩]
    (by decide)
